import Mathlib

/-!
Verification development for the `wpschema` WavePlot client
(`src/wpschema/_waveplot.py`).

Shallow embedding conventions:

* Python floating-point values (`c_float` sample values, the dynamic-range
  rating) are modelled as exact rationals (`ℚ`); Python's `int(...)`
  truncation toward zero is modelled by `pyInt`.
* The native `libwaveplot` library is an external collaborator.  Its
  observable behaviour during one `generate` call (whether the file exists,
  the `load_file` return code, the success of `alloc_audio_samples`, the
  successive `get_samples` return values, the finalized accumulator
  contents, the dynamic-range rating, and the version string) is supplied
  as a `GenEnv` record.  The DSP primitives used by the on-demand
  operations (`resample_waveplot`, `generate_sonic_hash`) are supplied as
  abstract functions in a `DspEnv` record.
* The mutable Python object `self` is a `WavePlotState`.  Each operation
  returns the final state together with `exn : Option PyError`; `exn = some e`
  means the Python call raises `e`, which propagates to the caller
  unhandled (the state component is the object's state at the moment the
  exception escapes, since Python mutates `self` in place).
* HTTP responses are given as a status code plus an optional parsed body;
  `none` models a response body that is not valid JSON
  (`response.json()` raising a JSON decode error).  A missing key in a
  parsed body is modelled by an `Option` field being `none`; subscripting
  a missing key raises `PyError.keyError`, while `.get(k, d)` yields the
  default.
* Native resource handling inside `generate` is tracked by the `held`
  component of `GenResult`: the native allocations made by the call that
  have not been released (`free_*`d) when the call exits.
-/

/-- Python `int(...)` applied to a real (float) value: truncation toward
zero.  Floats are modelled as exact rationals. -/
def pyInt (q : ℚ) : ℤ :=
  if q < 0 then ⌈q⌉ else ⌊q⌋

/-- The fixed-point scaling applied to one native floating-point sample in
`generate` (source line 210): `int(200.0 * value)`. -/
def scaleSample (v : ℚ) : ℤ :=
  pyInt (200 * v)

/-- Whether an integer is a valid byte for `bytes(bytearray(...))`. -/
def byteOk (z : ℤ) : Bool :=
  decide (0 ≤ z ∧ z < 256)

/-- Python `bytes(bytearray(xs))` on a list of ints: the byte string when
every entry is in `[0, 256)`, otherwise a `ValueError` (modelled as
`none`). -/
def toByteList (xs : List ℤ) : Option (List ℕ) :=
  if xs.all byteOk then some (xs.map Int.toNat) else none

/-- The float list handed to the native layer by `_get_waveplot_ptr`
(source line 147): each stored byte divided by `200.0`. -/
def scaledData (full : List ℕ) : List ℚ :=
  full.map (fun x => (x : ℚ) / 200)

/-- Python exceptions that the modelled operations can raise. -/
inductive PyError where
  | ioError (msg : String)
  | memoryError
  | valueError
  | typeError
  | jsonDecodeError
  | keyError (key : String)
deriving DecidableEq

/-- The fields of the `WavePlot` Python object.  `__init__` sets every
field to `None`, which is the default value of every field here. -/
structure WavePlotState where
  gid : Option String := none
  duration : Option ℕ := none
  dr_level : Option ℚ := none
  source_type : Option String := none
  sample_rate : Option ℕ := none
  bit_depth : Option ℕ := none
  bit_rate : Option ℕ := none
  num_channels : Option ℕ := none
  image_hash : Option String := none
  full : Option (List ℕ) := none
  preview : Option (List ℕ) := none
  thumbnail : Option (List ℕ) := none
  sonic_hash : Option ℕ := none
  version : Option String := none
  path : Option String := none
deriving DecidableEq

/-- A freshly constructed `WavePlot()` object. -/
def initWavePlot : WavePlotState := {}

/-- The `_Info` record filled in by the native `get_info`. -/
structure InfoRec where
  duration_secs : ℕ
  num_channels : ℕ
  bit_depth : ℕ
  bit_rate : ℕ
  sample_rate : ℕ
  file_format : String
deriving DecidableEq

/-- Observable behaviour of the filesystem and the native library during
one `generate` call. -/
structure GenEnv where
  fileExists : Bool
  absPath : String
  loadResult : ℤ
  info : InfoRec
  allocSamplesOk : Bool
  pulls : List ℤ
  waveValues : List ℚ
  drRating : ℚ
  libVersion : String
deriving DecidableEq

/-- Native allocations made by `generate`. -/
inductive Res where
  | file
  | info
  | waveplot
  | dr
  | audioSamples
deriving DecidableEq

/-- The four structures allocated unconditionally at the top of
`generate` (source lines 159-162). -/
def initialAllocs : List Res :=
  [Res.file, Res.info, Res.waveplot, Res.dr]

/-- Result of one `generate` call: the optional escaped exception, the
object state at exit, and the native allocations not yet released at
exit. -/
structure GenResult where
  exn : Option PyError
  state : WavePlotState
  held : List Res
deriving DecidableEq

/-- The decode loop of `generate` (source lines 182-187):
`decoded = get_samples(...)` then `while decoded >= 0: ...`.  Consumes
successive `get_samples` return values until the first negative one and
returns the consumed non-negative prefix; `none` if the stream never
produces a negative value (the Python loop would not terminate). -/
def runDecodeLoop : List ℤ → Option (List ℤ)
  | [] => none
  | d :: rest =>
    if d < 0 then some [] else (runDecodeLoop rest).map (fun l => d :: l)

/-- `self.path = os.path.abspath(audio_path).encode("utf-8")` (line 167). -/
def setPath (env : GenEnv) (s : WavePlotState) : WavePlotState :=
  { s with path := some env.absPath }

/-- The block of instance-variable assignments at source lines 197-209
(everything assigned before `self.full`). -/
def setMeta (env : GenEnv) (s : WavePlotState) : WavePlotState :=
  { s with
    gid := none
    duration := some env.info.duration_secs
    dr_level := some env.drRating
    source_type := some env.info.file_format
    sample_rate := some env.info.sample_rate
    bit_depth := some env.info.bit_depth
    bit_rate := some env.info.bit_rate
    num_channels := some env.info.num_channels
    image_hash := none }

/-- The assignments at source lines 210-216: `self.full`, then
`self.preview = self.thumbnail = self.sonic_hash = None` and
`self.version`. -/
def setFinal (env : GenEnv) (full : List ℕ) (s : WavePlotState) : WavePlotState :=
  { s with
    full := some full
    preview := none
    thumbnail := none
    sonic_hash := none
    version := some env.libVersion }

/-- `WavePlot.generate` (source lines 155-222).  Returns `none` when the
decode loop does not terminate (no negative `get_samples` result ever
appears). -/
def generate (env : GenEnv) (s : WavePlotState) : Option GenResult :=
  if env.fileExists then
    if env.loadResult < 0 then
      some { exn := some (PyError.ioError "load"), state := setPath env s,
             held := initialAllocs }
    else if env.allocSamplesOk then
      match runDecodeLoop env.pulls with
      | none => none
      | some _ =>
        match toByteList (env.waveValues.map scaleSample) with
        | none =>
          some { exn := some PyError.valueError,
                 state := setMeta env (setPath env s),
                 held := Res.audioSamples :: initialAllocs }
        | some full =>
          some { exn := none,
                 state := setFinal env full (setMeta env (setPath env s)),
                 held := [] }
    else
      some { exn := some PyError.memoryError, state := setPath env s,
             held := initialAllocs }
  else
    some { exn := some (PyError.ioError "file not found"), state := s,
           held := initialAllocs }

/-- The constants at source lines 38-42. -/
def THUMB_IMAGE_WIDTH : ℕ := 50

/-- Thumbnail image height constant (source line 39). -/
def THUMB_IMAGE_HEIGHT : ℕ := 21

/-- Preview image width constant (source line 41). -/
def PREVIEW_IMAGE_WIDTH : ℕ := 400

/-- Preview image height constant (source line 42). -/
def PREVIEW_IMAGE_HEIGHT : ℕ := 151

/-- Abstract behaviour of the external DSP primitives used by the
on-demand operations.  `resample buf w h x` is the value left in
`w_ptr.contents.resample[x]` by `resample_waveplot(w_ptr, w, h)` when the
buffer holds the floats `buf`; `sonicHash buf` is the (untruncated) value
returned by the native `generate_sonic_hash` on a buffer holding `buf`
(the ctypes `restype = c_uint16` truncation to 16 bits is applied at the
call site). -/
structure DspEnv where
  resample : List ℚ → ℕ → ℕ → ℕ → ℚ
  sonicHash : List ℚ → ℕ

/-- The ints read back after a resample call (source lines 233-234 /
248-249): `[int(w_ptr.contents.resample[x]) for x in range(width)]`. -/
def resampleInts (dsp : DspEnv) (buf : List ℚ) (w h : ℕ) : List ℤ :=
  (List.range w).map (fun x => pyInt (dsp.resample buf w h x))

/-- Result of an operation that can raise and mutates only the object. -/
structure OpResult where
  exn : Option PyError
  state : WavePlotState
deriving DecidableEq

/-- `WavePlot.generate_preview` (source lines 227-240).  `_get_waveplot_ptr`
calls `bytearray(self.full)`, which raises a `TypeError` when `self.full`
is `None`. -/
def generate_preview (dsp : DspEnv) (s : WavePlotState) : OpResult :=
  match s.full with
  | none => { exn := some PyError.typeError, state := s }
  | some f =>
    match toByteList (resampleInts dsp (scaledData f) PREVIEW_IMAGE_WIDTH
        (PREVIEW_IMAGE_HEIGHT / 2)) with
    | none => { exn := some PyError.valueError, state := s }
    | some bs => { exn := none, state := { s with preview := some bs } }

/-- `WavePlot.generate_thumbnail` (source lines 242-255). -/
def generate_thumbnail (dsp : DspEnv) (s : WavePlotState) : OpResult :=
  match s.full with
  | none => { exn := some PyError.typeError, state := s }
  | some f =>
    match toByteList (resampleInts dsp (scaledData f) THUMB_IMAGE_WIDTH
        (THUMB_IMAGE_HEIGHT / 2)) with
    | none => { exn := some PyError.valueError, state := s }
    | some bs => { exn := none, state := { s with thumbnail := some bs } }

/-- Result of `generate_sonic_hash`: it also returns the hash value. -/
structure SonicResult where
  exn : Option PyError
  state : WavePlotState
  ret : Option ℕ
deriving DecidableEq

/-- `WavePlot.generate_sonic_hash` (source lines 257-264).  The buffer
handed to the native primitive is the one built by `_get_waveplot_ptr`:
the full-resolution sequence scaled by `1/200`, with no resampling.  The
`restype = c_uint16` declaration truncates the returned value to 16
bits. -/
def generate_sonic_hash (dsp : DspEnv) (s : WavePlotState) : SonicResult :=
  match s.full with
  | none => { exn := some PyError.typeError, state := s, ret := none }
  | some f =>
    let h := dsp.sonicHash (scaledData f) % 65536
    { exn := none, state := { s with sonic_hash := some h }, ret := some h }

/-- `WavePlot.get_image_hash` (source lines 224-225): returns the SHA-1
digest of `self.full` (the digest function is an external primitive,
abstracted as `sha1`); raises a `TypeError` when `self.full` is `None`.
It does not assign `self.image_hash`. -/
def get_image_hash (sha1 : List ℕ → String) (s : WavePlotState) : Option String :=
  s.full.map sha1

/-- Parsed JSON body of the metadata response consumed by `get` (source
lines 276-292).  A field being `none` models the key being absent. -/
structure GetBody where
  gid : Option String := none
  duration : Option ℕ := none
  dr_level : Option ℚ := none
  source_type : Option String := none
  sample_rate : Option ℕ := none
  bit_depth : Option ℕ := none
  bit_rate : Option ℕ := none
  num_channels : Option ℕ := none
  image_sha1 : Option String := none
  thumbnail : Option (List ℕ) := none
  sonic_hash : Option ℕ := none
  version : Option String := none
deriving DecidableEq

/-- Parsed JSON body of the `/full` response consumed by `get` (source
line 294); `data` holds the Base64-decoded waveform payload. -/
structure FullBody where
  data : Option (List ℕ) := none
deriving DecidableEq

/-- `WavePlot.get` (source lines 266-294).  Both `response.json()` calls
happen before any field assignment and are not guarded by a try/except:
an unparseable body raises a JSON decode error that escapes to the
caller.  Field assignments then happen one at a time, each dict subscript
raising `KeyError` when the key is absent (leaving the fields assigned so
far mutated). -/
def getModel (metaResp : Option GetBody) (fullResp : Option FullBody)
    (s : WavePlotState) : OpResult :=
  match metaResp with
  | none => { exn := some PyError.jsonDecodeError, state := s }
  | some m =>
    match fullResp with
    | none => { exn := some PyError.jsonDecodeError, state := s }
    | some fb =>
      match m.gid with
      | none => { exn := some (PyError.keyError "gid"), state := s }
      | some v0 =>
        let s1 := { s with gid := some v0 }
        match m.duration with
        | none => { exn := some (PyError.keyError "duration"), state := s1 }
        | some v1 =>
          let s2 := { s1 with duration := some v1 }
          match m.dr_level with
          | none => { exn := some (PyError.keyError "dr_level"), state := s2 }
          | some v2 =>
            let s3 := { s2 with dr_level := some v2 }
            match m.source_type with
            | none => { exn := some (PyError.keyError "source_type"), state := s3 }
            | some v3 =>
              let s4 := { s3 with source_type := some v3 }
              match m.sample_rate with
              | none => { exn := some (PyError.keyError "sample_rate"), state := s4 }
              | some v4 =>
                let s5 := { s4 with sample_rate := some v4 }
                match m.bit_depth with
                | none => { exn := some (PyError.keyError "bit_depth"), state := s5 }
                | some v5 =>
                  let s6 := { s5 with bit_depth := some v5 }
                  match m.bit_rate with
                  | none => { exn := some (PyError.keyError "bit_rate"), state := s6 }
                  | some v6 =>
                    let s7 := { s6 with bit_rate := some v6 }
                    match m.num_channels with
                    | none => { exn := some (PyError.keyError "num_channels"), state := s7 }
                    | some v7 =>
                      let s8 := { s7 with num_channels := some v7 }
                      match m.image_sha1 with
                      | none => { exn := some (PyError.keyError "image_sha1"), state := s8 }
                      | some v8 =>
                        let s9 := { s8 with image_hash := some v8 }
                        match m.thumbnail with
                        | none => { exn := some (PyError.keyError "thumbnail"), state := s9 }
                        | some v9 =>
                          let s10 := { s9 with thumbnail := some v9 }
                          match m.sonic_hash with
                          | none => { exn := some (PyError.keyError "sonic_hash"), state := s10 }
                          | some v10 =>
                            let s11 := { s10 with sonic_hash := some v10 }
                            match m.version with
                            | none => { exn := some (PyError.keyError "version"), state := s11 }
                            | some v11 =>
                              let s12 := { s11 with version := some v11 }
                              match fb.data with
                              | none => { exn := some (PyError.keyError "data"), state := s12 }
                              | some w => { exn := none, state := { s12 with full := some w } }

/-- Parsed JSON body of the register (upload) response (source lines
316-329). -/
structure UploadBody where
  gid : Option String := none
  image_hash : Option String := none
  thumbnail : Option (List ℕ) := none
  sonic_hash : Option ℕ := none
  message : Option String := none
deriving DecidableEq

/-- Result of `upload`: optional escaped exception, final object state,
and the error messages printed. -/
structure UploadResult where
  exn : Option PyError
  state : WavePlotState
  reports : List String
deriving DecidableEq

/-- `WavePlot.upload` (source lines 296-329).  `zlib.compress(self.full)`
raises a `TypeError` when `self.full` is `None`, before any request is
made.  A JSON decode error from `response.json()` is caught and reported;
`data` then still refers to the request dict built at lines 299-310,
which has none of the keys later subscripted (`gid`, `image_hash`,
`thumbnail`, `sonic_hash`, `message`), so a status below 300 or equal to
303 then raises a `KeyError`, while `data.get('message', 'Unknown')`
yields the default. -/
def upload (status : ℕ) (body : Option UploadBody) (s : WavePlotState) :
    UploadResult :=
  match s.full with
  | none => { exn := some PyError.typeError, state := s, reports := [] }
  | some _ =>
    match body with
    | some d =>
      if status < 300 then
        match d.gid with
        | none => { exn := some (PyError.keyError "gid"), state := s, reports := [] }
        | some g =>
          let s1 := { s with gid := some g }
          match d.image_hash with
          | none => { exn := some (PyError.keyError "image_hash"), state := s1, reports := [] }
          | some ih =>
            let s2 := { s1 with image_hash := some ih }
            match d.thumbnail with
            | none => { exn := some (PyError.keyError "thumbnail"), state := s2, reports := [] }
            | some th =>
              let s3 := { s2 with thumbnail := some th }
              match d.sonic_hash with
              | none => { exn := some (PyError.keyError "sonic_hash"), state := s3, reports := [] }
              | some sh =>
                { exn := none, state := { s3 with sonic_hash := some sh }, reports := [] }
      else if status = 303 then
        match d.message with
        | none => { exn := some (PyError.keyError "message"), state := s, reports := [] }
        | some m => { exn := none, state := { s with gid := some m }, reports := [] }
      else
        { exn := none, state := s,
          reports := ["Error: " ++ d.message.getD "Unknown"] }
    | none =>
      if status < 300 then
        { exn := some (PyError.keyError "gid"), state := s,
          reports := ["Error: No JSON object in response!"] }
      else if status = 303 then
        { exn := some (PyError.keyError "message"), state := s,
          reports := ["Error: No JSON object in response!"] }
      else
        { exn := none, state := s,
          reports := ["Error: No JSON object in response!", "Error: Unknown"] }

/-- JSON-ish values stored in the caller-supplied metadata dict passed to
`link` (`None` or a string). -/
inductive JVal where
  | null
  | str (v : String)
deriving DecidableEq

/-- Python dict lookup `d[k]` / `d.get(k)` on an association list. -/
def dictLookup (d : List (String × JVal)) (k : String) : Option JVal :=
  (d.find? (fun p => p.1 == k)).map (fun p => p.2)

/-- Python in-place `d.update({k: v})`: replaces the value of an existing
key, otherwise appends the new key. -/
def dictUpdate (d : List (String × JVal)) (k : String) (v : JVal) :
    List (String × JVal) :=
  if d.any (fun p => p.1 == k) then
    d.map (fun p => if p.1 == k then (k, v) else p)
  else
    d ++ [(k, v)]

/-- `self.gid` as the JSON value inserted by `link` (`None` or a string). -/
def gidJVal (s : WavePlotState) : JVal :=
  (s.gid).elim JVal.null JVal.str

/-- Parsed JSON body of the link response (source lines 341-347). -/
structure LinkBody where
  message : Option String := none
deriving DecidableEq

/-- Result of `link`: optional escaped exception, final object state, the
caller-supplied metadata dict after the call (aliased and mutated in
place by `data.update`), and the error messages printed. -/
structure LinkResult where
  exn : Option PyError
  state : WavePlotState
  metadataOut : List (String × JVal)
  reports : List String
deriving DecidableEq

/-- `WavePlot.link` (source lines 331-347).  `data = metadata` aliases the
caller's dict, and `data.update({'waveplot_uuid': self.gid})` mutates it
in place before the request.  A JSON decode error is caught and reported;
in that case `data` still refers to the (mutated) metadata dict, so
`data.get('message', 'Unknown')` reads from it: a string value is
reported, an absent key reports the default, and a `None` value would
make `"Error: " + data.get(...)` raise a `TypeError`. -/
def link (status : ℕ) (body : Option LinkBody)
    (metadata : List (String × JVal)) (s : WavePlotState) : LinkResult :=
  let d := dictUpdate metadata "waveplot_uuid" (gidJVal s)
  match body with
  | some b =>
    if 300 ≤ status then
      { exn := none, state := s, metadataOut := d,
        reports := ["Error: " ++ b.message.getD "Unknown"] }
    else
      { exn := none, state := s, metadataOut := d, reports := [] }
  | none =>
    if 300 ≤ status then
      match dictLookup d "message" with
      | some (JVal.str m) =>
        { exn := none, state := s, metadataOut := d,
          reports := ["Error: No JSON object in response!", "Error: " ++ m] }
      | some JVal.null =>
        { exn := some PyError.typeError, state := s, metadataOut := d,
          reports := ["Error: No JSON object in response!"] }
      | none =>
        { exn := none, state := s, metadataOut := d,
          reports := ["Error: No JSON object in response!", "Error: Unknown"] }
    else
      { exn := none, state := s, metadataOut := d,
        reports := ["Error: No JSON object in response!"] }

/-- Characterization of a successful `bytes(bytearray(...))` conversion. -/
theorem toByteList_some {xs : List ℤ} {bs : List ℕ}
    (h : toByteList xs = some bs) : bs = xs.map Int.toNat := by
  unfold toByteList at h
  split at h
  · exact (Option.some.inj h).symm
  · exact absurd h (by simp)

/-- `getD` on a map over `List.range`. -/
theorem mapRange_getD {β : Type} (w i : ℕ) (g : ℕ → β) (b : β) (h : i < w) :
    ((List.range w).map g).getD i b = g i := by
  rw [List.getD_eq_getElem?_getD, List.getElem?_map, List.getElem?_range h]
  rfl

/-- The decode loop consumes exactly the pull results before the first
negative one and then stops. -/
theorem runDecodeLoop_stops (pre rest : List ℤ) (d : ℤ)
    (hpre : ∀ x ∈ pre, 0 ≤ x) (hd : d < 0) :
    runDecodeLoop (pre ++ d :: rest) = some pre := by
  induction pre with
  | nil => simp [runDecodeLoop, hd]
  | cons a tl ih =>
    have ha : 0 ≤ a := hpre a (List.mem_cons_self a tl)
    have h2 : ∀ x ∈ tl, 0 ≤ x := fun x hx => hpre x (List.mem_cons_of_mem a hx)
    simp [runDecodeLoop, not_lt.mpr ha, ih h2]

/-- Shape of every successful `generate` run. -/
theorem generate_ok (env : GenEnv) (s : WavePlotState) (r : GenResult)
    (h : generate env s = some r) (hok : r.exn = none) :
    ∃ bs, toByteList (env.waveValues.map scaleSample) = some bs ∧
      r = { exn := none, state := setFinal env bs (setMeta env (setPath env s)),
            held := [] } := by
  unfold generate at h
  by_cases hF : env.fileExists
  · rw [if_pos hF] at h
    by_cases hL : env.loadResult < 0
    · rw [if_pos hL] at h
      obtain rfl := Option.some.inj h
      exact absurd hok (by simp)
    · rw [if_neg hL] at h
      by_cases hA : env.allocSamplesOk
      · rw [if_pos hA] at h
        cases hRD : runDecodeLoop env.pulls with
        | none => rw [hRD] at h; exact absurd h (by simp)
        | some blocks =>
          rw [hRD] at h
          cases hBL : toByteList (env.waveValues.map scaleSample) with
          | none =>
            rw [hBL] at h
            obtain rfl := Option.some.inj h
            exact absurd hok (by simp)
          | some bs =>
            rw [hBL] at h
            obtain rfl := Option.some.inj h
            exact ⟨bs, rfl, rfl⟩
      · rw [if_neg hA] at h
        obtain rfl := Option.some.inj h
        exact absurd hok (by simp)
  · rw [if_neg hF] at h
    obtain rfl := Option.some.inj h
    exact absurd hok (by simp)

/-- A fully populated metadata body, used for concrete test runs. -/
def mBody0 : GetBody :=
  { gid := some "g-1", duration := some 42, dr_level := some 9,
    source_type := some "MP3", sample_rate := some 44100,
    bit_depth := some 16, bit_rate := some 320, num_channels := some 2,
    image_sha1 := some "abc", thumbnail := some [5], sonic_hash := some 77,
    version := some "DAMAGED_1" }

/-- A well-formed full-waveform body. -/
def fb0 : FullBody := { data := some [3, 4] }

/-- A fully populated upload-response body. -/
def ub0 : UploadBody :=
  { gid := some "g-up", image_hash := some "ih", thumbnail := some [7],
    sonic_hash := some 9, message := some "g-dup" }

/-- A state with a one-byte full-resolution sequence. -/
def sWF : WavePlotState := { initWavePlot with full := some [100] }

/-- A state with a three-byte full-resolution sequence. -/
def sTri : WavePlotState := { initWavePlot with full := some [0, 0, 0] }

/-- A state previously populated by a retrieval (identifier and preview
set), used to observe `generate` discarding them. -/
def sOld : WavePlotState :=
  { initWavePlot with
    gid := some "remote"
    preview := some [1]
    image_hash := some "old"
    thumbnail := some [2]
    sonic_hash := some 5 }

/-- Concrete format metadata used for test runs. -/
def infoA : InfoRec :=
  { duration_secs := 42, num_channels := 2, bit_depth := 16,
    bit_rate := 320, sample_rate := 44100, file_format := "MP3" }

/-- A library environment whose first sample pull immediately returns the
negative sentinel, with everything else healthy. -/
def envNeg : GenEnv :=
  { fileExists := true, absPath := "/music/a.mp3", loadResult := 0,
    info := infoA, allocSamplesOk := true, pulls := [-1],
    waveValues := [1/2], drRating := 9, libVersion := "DAMAGED_1" }

/-- The same environment but with a missing file. -/
def envNF : GenEnv := { envNeg with fileExists := false }

/-- A concrete DSP layer: the resampler writes `0.0` everywhere and the
sonic-hash primitive returns the length of the buffer it is handed. -/
def dspLen : DspEnv :=
  { resample := fun _ _ _ _ => 0, sonicHash := fun l => l.length }

/-- `pyInt` of zero. -/
theorem pyInt_zero : pyInt 0 = 0 := by
  simp [pyInt]

/-- The constant-zero resampler yields an all-zero int list. -/
theorem resampleInts_dspLen (buf : List ℚ) (w h : ℕ) :
    resampleInts dspLen buf w h = List.replicate w 0 := by
  unfold resampleInts dspLen
  simp [pyInt_zero, List.map_const']

/-- `toByteList` on an all-zero list. -/
theorem toByteList_replicate_zero (w : ℕ) :
    toByteList (List.replicate w 0) = some (List.replicate w 0) := by
  unfold toByteList
  rw [if_pos]
  · rw [List.map_replicate]
    rfl
  · simp [List.all_eq_true, List.mem_replicate, byteOk]

/-- The result of a healthy `generate` run in environment `envNeg`. -/
def rGen0 : GenResult :=
  { exn := none,
    state := setFinal envNeg [100] (setMeta envNeg (setPath envNeg initWavePlot)),
    held := [] }

/-- Running `generate` in `envNeg` from any starting state. -/
theorem generate_envNeg (s : WavePlotState) :
    generate envNeg s =
      some { exn := none,
             state := setFinal envNeg [100] (setMeta envNeg (setPath envNeg s)),
             held := [] } := by
  norm_num [generate, envNeg, runDecodeLoop, toByteList, scaleSample, pyInt,
    byteOk]
  rfl

/-- Claim C3: each stored amplitude sample equals the native
floating-point sample value multiplied by exactly 200 and truncated (not
rounded): 0.005 gives byte 1, 0.5 gives byte 100, a value scaling to
100.5 still gives 100, the truncation never exceeds the scaled value for
non-negative inputs, and `generate` stores exactly the bytes obtained by
`scaleSample` from the native sample values. -/
theorem C3_fixed_point_scaling :
    scaleSample (1/200) = 1 ∧
    scaleSample (1/2) = 100 ∧
    scaleSample (201/400) = 100 ∧
    (∀ v : ℚ, 0 ≤ v → (scaleSample v : ℚ) ≤ 200 * v) ∧
    (∀ env s r, generate env s = some r → r.exn = none →
      r.state.full = toByteList (env.waveValues.map scaleSample)) := by
  refine ⟨by norm_num [scaleSample, pyInt], by norm_num [scaleSample, pyInt],
    by norm_num [scaleSample, pyInt], ?_, ?_⟩
  · intro v hv
    have h200 : (0 : ℚ) ≤ 200 * v := by positivity
    unfold scaleSample pyInt
    rw [if_neg (not_lt.mpr h200)]
    exact Int.floor_le _
  · intro env s r h hok
    obtain ⟨bs, hbs, rfl⟩ := generate_ok env s r h hok
    simp [setFinal, hbs]

/-- Witness for C3 at concrete inputs. -/
theorem C3_fixed_point_scaling_witness :
    ((0 : ℚ) ≤ 1/4 ∧ (scaleSample (1/4) : ℚ) ≤ 200 * (1/4)) ∧
    (generate envNeg initWavePlot = some rGen0 ∧ rGen0.exn = none ∧
      rGen0.state.full = toByteList (envNeg.waveValues.map scaleSample)) :=
  ⟨⟨by norm_num, C3_fixed_point_scaling.2.2.2.1 (1/4) (by norm_num)⟩,
    generate_envNeg initWavePlot, rfl,
    C3_fixed_point_scaling.2.2.2.2 envNeg initWavePlot rGen0
      (generate_envNeg initWavePlot) rfl⟩

/-- The bytes stored for the sample values `[0.5]`. -/
theorem toByteList_envNeg :
    toByteList (envNeg.waveValues.map scaleSample) = some [100] := by
  norm_num [envNeg, toByteList, scaleSample, pyInt, byteOk]
  rfl

/-- Claim C1 counterexample: in an environment whose very first sample
pull returns the negative sentinel `-1`, `generate` does not abort in a
failed state — it returns with no exception and with the duration,
dynamic-range rating and full-resolution sequence populated, refuting the
claim that such a pull aborts the operation with no fields exposed. -/
theorem C1_counterexample :
    (generate envNeg initWavePlot).map
        (fun r => (r.exn, r.state.duration, r.state.dr_level, r.state.full)) =
      some (none, some 42, some 9, some [100]) := by
  rw [generate_envNeg]
  norm_num [envNeg, infoA, setFinal, setMeta, setPath]

/-- Claim C1 (amended): a negative `get_samples` result merely ends the
decode loop, exactly like end-of-stream — the loop consumes the pulls
before the first negative one — and generation then finalizes and
populates the entity (duration, dynamic-range rating, format fields,
full-resolution sequence), completing with no exception. -/
theorem C1_negative_pull_completes (env : GenEnv) (s : WavePlotState)
    (hF : env.fileExists = true) (hL : ¬ env.loadResult < 0)
    (hA : env.allocSamplesOk = true)
    (pre rest : List ℤ) (d : ℤ)
    (hpulls : env.pulls = pre ++ d :: rest)
    (hpre : ∀ x ∈ pre, 0 ≤ x) (hd : d < 0)
    (bs : List ℕ)
    (hbs : toByteList (env.waveValues.map scaleSample) = some bs) :
    runDecodeLoop env.pulls = some pre ∧
    generate env s =
      some { exn := none,
             state := setFinal env bs (setMeta env (setPath env s)),
             held := [] } ∧
    (setFinal env bs (setMeta env (setPath env s))).duration =
      some env.info.duration_secs ∧
    (setFinal env bs (setMeta env (setPath env s))).dr_level =
      some env.drRating ∧
    (setFinal env bs (setMeta env (setPath env s))).full = some bs := by
  have hloop : runDecodeLoop env.pulls = some pre := by
    rw [hpulls]
    exact runDecodeLoop_stops pre rest d hpre hd
  refine ⟨hloop, ?_, by simp [setFinal, setMeta], by simp [setFinal, setMeta],
    by simp [setFinal]⟩
  unfold generate
  rw [if_pos hF, if_neg hL, if_pos hA, hloop, hbs]

/-- Witness for the amended C1 at a concrete input. -/
theorem C1_negative_pull_completes_witness :
    runDecodeLoop envNeg.pulls = some [] ∧
    generate envNeg initWavePlot = some rGen0 := by
  have h := C1_negative_pull_completes envNeg initWavePlot rfl (by decide) rfl
    [] [] (-1) rfl (by simp) (by decide) [100] toByteList_envNeg
  exact ⟨h.1, h.2.1⟩

/-- The result of `generate` when the audio file does not exist. -/
def rNF : GenResult :=
  { exn := some (PyError.ioError "file not found"), state := initWavePlot,
    held := initialAllocs }

/-- The result of a healthy `generate` run in `envNeg` starting from the
previously populated state `sOld`. -/
def rGenOld : GenResult :=
  { exn := none,
    state := setFinal envNeg [100] (setMeta envNeg (setPath envNeg sOld)),
    held := [] }

/-- Claim C5 counterexample: on the file-not-found exit path the four
native structures allocated at the top of `generate` (file, info,
waveplot, dynamic-range records) are still held when the error
propagates — nothing is released, refuting the claim that every exit
path releases all resources acquired so far. -/
theorem C5_counterexample :
    (generate envNF initWavePlot).map (fun r => (r.exn, r.held)) =
      some (some (PyError.ioError "file not found"), initialAllocs) ∧
    initialAllocs ≠ [] := by
  constructor
  · norm_num [generate, envNF, envNeg]
  · simp [initialAllocs]

/-- Claim C5 (amended): `generate` releases its native allocations only
on the successful path — a run exits with no resources held exactly when
it exits with no exception; every error exit (file-not-found, load
failure, allocation failure, out-of-range sample value) leaks the
structures acquired so far. -/
theorem C5_release_iff_success (env : GenEnv) (s : WavePlotState)
    (r : GenResult) (h : generate env s = some r) :
    r.exn = none ↔ r.held = [] := by
  unfold generate at h
  by_cases hF : env.fileExists
  · rw [if_pos hF] at h
    by_cases hL : env.loadResult < 0
    · rw [if_pos hL] at h
      obtain rfl := Option.some.inj h
      simp [initialAllocs]
    · rw [if_neg hL] at h
      by_cases hA : env.allocSamplesOk
      · rw [if_pos hA] at h
        cases hRD : runDecodeLoop env.pulls with
        | none => rw [hRD] at h; exact absurd h (by simp)
        | some blocks =>
          rw [hRD] at h
          cases hBL : toByteList (env.waveValues.map scaleSample) with
          | none =>
            rw [hBL] at h
            obtain rfl := Option.some.inj h
            simp [initialAllocs]
          | some bs =>
            rw [hBL] at h
            obtain rfl := Option.some.inj h
            simp
      · rw [if_neg hA] at h
        obtain rfl := Option.some.inj h
        simp [initialAllocs]
  · rw [if_neg hF] at h
    obtain rfl := Option.some.inj h
    simp [initialAllocs]

/-- Witness for the amended C5: one successful run (everything released)
and one failing run (the four initial allocations leak). -/
theorem C5_release_iff_success_witness :
    (rGen0.exn = none ↔ rGen0.held = []) ∧
    (rNF.exn = none ↔ rNF.held = []) :=
  ⟨C5_release_iff_success envNeg initWavePlot rGen0 (generate_envNeg initWavePlot),
   C5_release_iff_success envNF initWavePlot rNF
     (by norm_num [generate, envNF, envNeg, rNF])⟩

/-- Claim C10: after every successful `generate` return, the identifier,
image hash, preview, thumbnail and sonic hash are all unset, whatever
they were before the call. -/
theorem C10_generate_clears_derived (env : GenEnv) (s : WavePlotState)
    (r : GenResult) (h : generate env s = some r) (hok : r.exn = none) :
    r.state.gid = none ∧ r.state.image_hash = none ∧
    r.state.preview = none ∧ r.state.thumbnail = none ∧
    r.state.sonic_hash = none := by
  obtain ⟨bs, hbs, rfl⟩ := generate_ok env s r h hok
  simp [setFinal, setMeta, setPath]

/-- Witness for C10: regenerating from a state whose identifier, preview,
image hash, thumbnail and sonic hash were previously populated still
clears all of them. -/
theorem C10_generate_clears_derived_witness :
    rGenOld.state.gid = none ∧ rGenOld.state.image_hash = none ∧
    rGenOld.state.preview = none ∧ rGenOld.state.thumbnail = none ∧
    rGenOld.state.sonic_hash = none :=
  C10_generate_clears_derived envNeg sOld rGenOld (generate_envNeg sOld) rfl

/-- Claim C6: the resampler is invoked with exactly the two fixed
contract pairs — width 400 with height `151 / 2 = 75` for the preview
and width 50 with height `21 / 2 = 10` for the thumbnail — on the
full-resolution sequence rescaled to floats by dividing each byte by
200, and each invocation produces exactly `width` bytes, each obtained
by truncating the corresponding resampled output. -/
theorem C6_resampler_contract (dsp : DspEnv) (s : WavePlotState)
    (f : List ℕ) (hf : s.full = some f)
    (pv : List ℕ)
    (hpv : toByteList (resampleInts dsp (scaledData f) 400 75) = some pv)
    (tb : List ℕ)
    (htb : toByteList (resampleInts dsp (scaledData f) 50 10) = some tb) :
    PREVIEW_IMAGE_WIDTH = 400 ∧ PREVIEW_IMAGE_HEIGHT / 2 = 75 ∧
    THUMB_IMAGE_WIDTH = 50 ∧ THUMB_IMAGE_HEIGHT / 2 = 10 ∧
    (generate_preview dsp s).exn = none ∧
    (generate_preview dsp s).state.preview = some pv ∧
    pv.length = 400 ∧
    (∀ i, i < 400 →
      pv.getD i 0 = (pyInt (dsp.resample (scaledData f) 400 75 i)).toNat) ∧
    (generate_thumbnail dsp s).exn = none ∧
    (generate_thumbnail dsp s).state.thumbnail = some tb ∧
    tb.length = 50 ∧
    (∀ i, i < 50 →
      tb.getD i 0 = (pyInt (dsp.resample (scaledData f) 50 10 i)).toNat) := by
  have hpv' := toByteList_some hpv
  have htb' := toByteList_some htb
  have e1 : generate_preview dsp s =
      { exn := none, state := { s with preview := some pv } } := by
    simp [generate_preview, hf, PREVIEW_IMAGE_WIDTH, PREVIEW_IMAGE_HEIGHT, hpv]
  have e2 : generate_thumbnail dsp s =
      { exn := none, state := { s with thumbnail := some tb } } := by
    simp [generate_thumbnail, hf, THUMB_IMAGE_WIDTH, THUMB_IMAGE_HEIGHT, htb]
  refine ⟨rfl, rfl, rfl, rfl, by rw [e1], by rw [e1], ?_, ?_,
    by rw [e2], by rw [e2], ?_, ?_⟩
  · rw [hpv']
    simp [resampleInts]
  · intro i hi
    rw [hpv']
    simp only [resampleInts, List.map_map]
    exact mapRange_getD 400 i _ 0 hi
  · rw [htb']
    simp [resampleInts]
  · intro i hi
    rw [htb']
    simp only [resampleInts, List.map_map]
    exact mapRange_getD 50 i _ 0 hi

/-- Witness for C6 with the constant-zero resampler. -/
theorem C6_resampler_contract_witness :
    (generate_preview dspLen sWF).state.preview =
      some (List.replicate 400 0) ∧
    (generate_thumbnail dspLen sWF).state.thumbnail =
      some (List.replicate 50 0) := by
  have hpv : toByteList (resampleInts dspLen (scaledData [100]) 400 75) =
      some (List.replicate 400 0) := by
    rw [resampleInts_dspLen]
    exact toByteList_replicate_zero 400
  have htb : toByteList (resampleInts dspLen (scaledData [100]) 50 10) =
      some (List.replicate 50 0) := by
    rw [resampleInts_dspLen]
    exact toByteList_replicate_zero 50
  have h := C6_resampler_contract dspLen sWF [100] rfl
    (List.replicate 400 0) hpv (List.replicate 50 0) htb
  exact ⟨h.2.2.2.2.2.1, h.2.2.2.2.2.2.2.2.2.1⟩

/-- Claim C7 counterexample: with a sonic-hash primitive that returns the
length of the buffer it is handed, hashing an entity whose
full-resolution sequence has three samples records the value 3 — the
primitive received the three-sample full-resolution buffer, not a
preview-scale (width 400) resampled buffer, refuting the claim that the
input buffer has the preview resample's (width, height)-conditioned
shape. -/
theorem C7_counterexample :
    (generate_sonic_hash dspLen sTri).state.sonic_hash = some 3 ∧
    (generate_sonic_hash dspLen sTri).ret = some 3 ∧
    (3 : ℕ) ≠ PREVIEW_IMAGE_WIDTH := by
  refine ⟨?_, ?_, by decide⟩ <;>
    simp [generate_sonic_hash, dspLen, sTri, scaledData, initWavePlot]

/-- Claim C7 (amended): the sonic hash is a 16-bit integer computed by
the external DSP layer's dedicated sonic-hash primitive — a function
distinct from the content hash — applied to the un-truncated
floating-point full-resolution sequence obtained by dividing each stored
byte by 200; the adapter performs no resampling before the call, and the
call mutates nothing but the `sonic_hash` field. -/
theorem C7_sonic_hash_unresampled (dsp : DspEnv) (s : WavePlotState)
    (f : List ℕ) (hf : s.full = some f) :
    (generate_sonic_hash dsp s).exn = none ∧
    (generate_sonic_hash dsp s).ret =
      some (dsp.sonicHash (scaledData f) % 65536) ∧
    (generate_sonic_hash dsp s).state.sonic_hash =
      some (dsp.sonicHash (scaledData f) % 65536) ∧
    dsp.sonicHash (scaledData f) % 65536 < 65536 ∧
    (generate_sonic_hash dsp s).state.full = s.full ∧
    (generate_sonic_hash dsp s).state.preview = s.preview ∧
    (generate_sonic_hash dsp s).state.gid = s.gid := by
  refine ⟨?_, ?_, ?_, Nat.mod_lt _ (by norm_num), ?_, ?_, ?_⟩ <;>
    simp [generate_sonic_hash, hf]

/-- Witness for the amended C7 at a concrete input. -/
theorem C7_sonic_hash_unresampled_witness :
    (generate_sonic_hash dspLen sWF).exn = none ∧
    (generate_sonic_hash dspLen sWF).state.sonic_hash =
      some (dspLen.sonicHash (scaledData [100]) % 65536) := by
  have h := C7_sonic_hash_unresampled dspLen sWF [100] rfl
  exact ⟨h.1, h.2.2.1⟩

/-- An upload-response body carrying the server-derived fields but no
message key. -/
def ubNoMsg : UploadBody :=
  { gid := some "g-up", image_hash := some "ih", thumbnail := some [7],
    sonic_hash := some 9, message := none }

/-- Claim C2: the register (upload) operation distinguishes exactly three
outcomes by HTTP status — below 300 writes the identifier and the
server-supplied image hash, thumbnail and sonic hash back into the
entity; exactly 303 adopts the identifier supplied in the response (the
message value) without failure; any other status leaves the entity
entirely unchanged and reports the server-supplied message, or the
`Unknown` default when the parsed body carries no message key. -/
theorem C2_upload_three_outcomes (status : ℕ) (d : UploadBody)
    (s : WavePlotState) (f : List ℕ) (hfull : s.full = some f)
    (g ih : String) (th : List ℕ) (sh : ℕ)
    (hg : d.gid = some g) (hih : d.image_hash = some ih)
    (hth : d.thumbnail = some th) (hsh : d.sonic_hash = some sh) :
    (status < 300 →
      (upload status (some d) s).exn = none ∧
      (upload status (some d) s).state.gid = some g ∧
      (upload status (some d) s).state.image_hash = some ih ∧
      (upload status (some d) s).state.thumbnail = some th ∧
      (upload status (some d) s).state.sonic_hash = some sh ∧
      (upload status (some d) s).reports = []) ∧
    (status = 303 → ∀ msg, d.message = some msg →
      (upload status (some d) s).exn = none ∧
      (upload status (some d) s).state.gid = some msg ∧
      (upload status (some d) s).reports = []) ∧
    (300 ≤ status → status ≠ 303 →
      (upload status (some d) s).exn = none ∧
      (upload status (some d) s).state = s ∧
      (upload status (some d) s).reports =
        ["Error: " ++ d.message.getD "Unknown"]) ∧
    (300 ≤ status → status ≠ 303 → d.message = none →
      (upload status (some d) s).reports = ["Error: Unknown"]) := by
  refine ⟨?_, ?_, ?_, ?_⟩
  · intro hlt
    simp [upload, hfull, hg, hih, hth, hsh, hlt]
  · intro h303 msg hmsg
    subst h303
    simp [upload, hfull, hmsg]
  · intro hge hne
    simp [upload, hfull, not_lt.mpr hge, hne]
  · intro hge hne hmnone
    simp [upload, hfull, not_lt.mpr hge, hne, hmnone]

/-- Witness for C2 at statuses 200, 303 and 404, the last both with a
server message and with none (the `Unknown` default). -/
theorem C2_upload_three_outcomes_witness :
    (upload 200 (some ub0) sWF).state.gid = some "g-up" ∧
    (upload 200 (some ub0) sWF).exn = none ∧
    (upload 303 (some ub0) sWF).state.gid = some "g-dup" ∧
    (upload 303 (some ub0) sWF).reports = [] ∧
    (upload 404 (some ub0) sWF).state = sWF ∧
    (upload 404 (some ub0) sWF).reports = ["Error: " ++ "g-dup"] ∧
    (upload 404 (some ubNoMsg) sWF).reports = ["Error: Unknown"] := by
  have h1 := C2_upload_three_outcomes 200 ub0 sWF [100] rfl "g-up" "ih" [7] 9
    rfl rfl rfl rfl
  have h2 := C2_upload_three_outcomes 303 ub0 sWF [100] rfl "g-up" "ih" [7] 9
    rfl rfl rfl rfl
  have h3 := C2_upload_three_outcomes 404 ub0 sWF [100] rfl "g-up" "ih" [7] 9
    rfl rfl rfl rfl
  have h4 := C2_upload_three_outcomes 404 ubNoMsg sWF [100] rfl "g-up" "ih"
    [7] 9 rfl rfl rfl rfl
  exact ⟨(h1.1 (by norm_num)).2.1, (h1.1 (by norm_num)).1,
    (h2.2.1 rfl "g-dup" rfl).2.1, (h2.2.1 rfl "g-dup" rfl).2.2,
    (h3.2.2.1 (by norm_num) (by norm_num)).2.1,
    (h3.2.2.1 (by norm_num) (by norm_num)).2.2,
    h4.2.2.2 (by norm_num) (by norm_num) rfl⟩

/-- Claim C4 counterexample: `get` receiving a response body that is not
valid JSON raises the JSON decode error to the caller — `response.json()`
at source line 271 is not guarded by any try/except — refuting the claim
that no sync operation ever crashes the caller on a malformed body (the
identifier is nevertheless unchanged, since the error occurs before any
assignment). -/
theorem C4_counterexample :
    getModel none none initWavePlot =
      { exn := some PyError.jsonDecodeError, state := initWavePlot } ∧
    (getModel none none initWavePlot).exn ≠ none := by
  exact ⟨rfl, by simp [getModel]⟩

/-- Claim C4 (amended): on a response body that is not valid JSON, `get`
raises the decode error to the caller with the entity unchanged — whether
the malformed body is the metadata response or the secondary
full-waveform response; `link` catches the decode error, leaves the
entity unchanged and, for statuses of 300 and above, reports the message
value it finds in the (already mutated) caller dict — the `Unknown`
default when the key is absent, the string when present — raising a
`TypeError` only in the edge case where the dict maps the message key to
`None`; `upload` catches and reports the decode error, then raises a
`KeyError` when the status is below 300 or exactly 303 (entity
unchanged), and for any other status returns normally with the entity
unchanged and the `Unknown` default report. -/
theorem C4_malformed_response (s : WavePlotState) (f : List ℕ)
    (hfull : s.full = some f) (md : List (String × JVal))
    (m : GetBody) (fullResp : Option FullBody) (status : ℕ) :
    getModel none fullResp s =
      { exn := some PyError.jsonDecodeError, state := s } ∧
    getModel (some m) none s =
      { exn := some PyError.jsonDecodeError, state := s } ∧
    (status < 300 → link status none md s =
      { exn := none, state := s,
        metadataOut := dictUpdate md "waveplot_uuid" (gidJVal s),
        reports := ["Error: No JSON object in response!"] }) ∧
    (300 ≤ status →
      dictLookup (dictUpdate md "waveplot_uuid" (gidJVal s)) "message" =
        none →
      link status none md s =
      { exn := none, state := s,
        metadataOut := dictUpdate md "waveplot_uuid" (gidJVal s),
        reports := ["Error: No JSON object in response!", "Error: Unknown"] }) ∧
    (300 ≤ status → ∀ mm,
      dictLookup (dictUpdate md "waveplot_uuid" (gidJVal s)) "message" =
        some (JVal.str mm) →
      link status none md s =
      { exn := none, state := s,
        metadataOut := dictUpdate md "waveplot_uuid" (gidJVal s),
        reports := ["Error: No JSON object in response!", "Error: " ++ mm] }) ∧
    (300 ≤ status →
      dictLookup (dictUpdate md "waveplot_uuid" (gidJVal s)) "message" =
        some JVal.null →
      link status none md s =
      { exn := some PyError.typeError, state := s,
        metadataOut := dictUpdate md "waveplot_uuid" (gidJVal s),
        reports := ["Error: No JSON object in response!"] }) ∧
    (status < 300 → upload status none s =
      { exn := some (PyError.keyError "gid"), state := s,
        reports := ["Error: No JSON object in response!"] }) ∧
    (status = 303 → upload status none s =
      { exn := some (PyError.keyError "message"), state := s,
        reports := ["Error: No JSON object in response!"] }) ∧
    (300 ≤ status → status ≠ 303 → upload status none s =
      { exn := none, state := s,
        reports := ["Error: No JSON object in response!", "Error: Unknown"] }) := by
  refine ⟨rfl, rfl, ?_, ?_, ?_, ?_, ?_, ?_, ?_⟩
  · intro hlt
    simp [link, not_le.mpr hlt]
  · intro hge hml
    simp [link, hge, hml]
  · intro hge mm hml
    simp [link, hge, hml]
  · intro hge hml
    simp [link, hge, hml]
  · intro hlt
    simp [upload, hfull, hlt]
  · intro h303
    subst h303
    simp [upload, hfull]
  · intro hge hne
    simp [upload, hfull, not_lt.mpr hge, hne]

/-- Witness for the amended C4: a 404 with an unparseable body against
`get` (second fetch malformed), `link` and `upload`. -/
theorem C4_malformed_response_witness :
    getModel (some mBody0) none sWF =
      { exn := some PyError.jsonDecodeError, state := sWF } ∧
    link 404 none [] sWF =
      { exn := none, state := sWF,
        metadataOut := [("waveplot_uuid", JVal.null)],
        reports := ["Error: No JSON object in response!", "Error: Unknown"] } ∧
    upload 404 none sWF =
      { exn := none, state := sWF,
        reports := ["Error: No JSON object in response!", "Error: Unknown"] } := by
  have h := C4_malformed_response sWF [100] rfl [] mBody0 none 404
  refine ⟨h.2.1, ?_, h.2.2.2.2.2.2.2.2 (by norm_num) (by norm_num)⟩
  rw [h.2.2.2.1 (by norm_num) (by decide)]
  simp [dictUpdate, gidJVal, sWF, initWavePlot]

/-- Claim C8 counterexample: with fully well-formed metadata and waveform
responses, `get` succeeds and populates the other fields but never
assigns the preview — it remains `None` on a fresh entity — refuting the
claim that the retrieve operation populates every WavePlot field
including the preview. -/
theorem C8_counterexample :
    (getModel (some mBody0) (some fb0) initWavePlot).exn = none ∧
    (getModel (some mBody0) (some fb0) initWavePlot).state.full =
      some [3, 4] ∧
    (getModel (some mBody0) (some fb0) initWavePlot).state.preview = none := by
  refine ⟨?_, ?_, ?_⟩ <;> simp [getModel, mBody0, fb0, initWavePlot]

/-- Claim C8 (amended): for well-formed metadata and waveform responses,
`get` populates the identifier, all scalar metadata, the full-resolution
sequence, the thumbnail, both hashes and the version from the retrieved
data, but leaves the preview (and the diagnostic path) untouched. -/
theorem C8_get_populates (m : GetBody) (fb : FullBody) (s : WavePlotState)
    (g : String) (du : ℕ) (dl : ℚ) (st : String) (sr bd br nc : ℕ)
    (ih : String) (th : List ℕ) (sh : ℕ) (vv : String) (w : List ℕ)
    (hg : m.gid = some g) (hdu : m.duration = some du)
    (hdl : m.dr_level = some dl) (hst : m.source_type = some st)
    (hsr : m.sample_rate = some sr) (hbd : m.bit_depth = some bd)
    (hbr : m.bit_rate = some br) (hnc : m.num_channels = some nc)
    (hih : m.image_sha1 = some ih) (hth : m.thumbnail = some th)
    (hsh : m.sonic_hash = some sh) (hvv : m.version = some vv)
    (hw : fb.data = some w) :
    (getModel (some m) (some fb) s).exn = none ∧
    (getModel (some m) (some fb) s).state.gid = some g ∧
    (getModel (some m) (some fb) s).state.duration = some du ∧
    (getModel (some m) (some fb) s).state.dr_level = some dl ∧
    (getModel (some m) (some fb) s).state.source_type = some st ∧
    (getModel (some m) (some fb) s).state.sample_rate = some sr ∧
    (getModel (some m) (some fb) s).state.bit_depth = some bd ∧
    (getModel (some m) (some fb) s).state.bit_rate = some br ∧
    (getModel (some m) (some fb) s).state.num_channels = some nc ∧
    (getModel (some m) (some fb) s).state.image_hash = some ih ∧
    (getModel (some m) (some fb) s).state.thumbnail = some th ∧
    (getModel (some m) (some fb) s).state.sonic_hash = some sh ∧
    (getModel (some m) (some fb) s).state.version = some vv ∧
    (getModel (some m) (some fb) s).state.full = some w ∧
    (getModel (some m) (some fb) s).state.preview = s.preview ∧
    (getModel (some m) (some fb) s).state.path = s.path := by
  simp [getModel, hg, hdu, hdl, hst, hsr, hbd, hbr, hnc, hih, hth, hsh, hvv,
    hw]

/-- Witness for the amended C8: retrieving into a previously populated
state sets the identifier from the response and leaves the stale preview
exactly as it was. -/
theorem C8_get_populates_witness :
    (getModel (some mBody0) (some fb0) sOld).state.gid = some "g-1" ∧
    (getModel (some mBody0) (some fb0) sOld).state.preview = sOld.preview := by
  have h := C8_get_populates mBody0 fb0 sOld "g-1" 42 9 "MP3" 44100 16 320 2
    "abc" [5] 77 "DAMAGED_1" [3, 4] rfl rfl rfl rfl rfl rfl rfl rfl rfl rfl
    rfl rfl rfl
  exact ⟨h.2.1, h.2.2.2.2.2.2.2.2.2.2.2.2.2.2.1⟩

/-- Claim C9 counterexample: `link` mutates its caller-supplied metadata
dict in place — `data = metadata` aliases it and
`data.update({'waveplot_uuid': self.gid})` inserts the identifier key —
so an empty caller dict comes back with one entry, refuting the claim
that link leaves its caller-supplied inputs unchanged. -/
theorem C9_counterexample :
    (link 200 (some { message := none }) [] initWavePlot).metadataOut =
      [("waveplot_uuid", JVal.null)] ∧
    (link 200 (some { message := none }) [] initWavePlot).metadataOut ≠
      [] := by
  constructor <;> simp [link, dictUpdate, gidJVal, initWavePlot]

/-- Claim C9 (amended): neither `upload` nor `link` mutates the entity's
waveform data — `link` leaves the entity completely unchanged but does
mutate the caller-supplied metadata mapping in place (inserting the
`waveplot_uuid` key), and `upload` never changes the full-resolution
sequence, preview, duration, dynamic-range level, format fields, version
or path, on any status and any response body. -/
theorem C9_no_waveform_mutation (status : ℕ) (body : Option LinkBody)
    (ub : Option UploadBody) (md : List (String × JVal))
    (s : WavePlotState) :
    (link status body md s).state = s ∧
    (link status body md s).metadataOut =
      dictUpdate md "waveplot_uuid" (gidJVal s) ∧
    (upload status ub s).state.full = s.full ∧
    (upload status ub s).state.preview = s.preview ∧
    (upload status ub s).state.duration = s.duration ∧
    (upload status ub s).state.dr_level = s.dr_level ∧
    (upload status ub s).state.source_type = s.source_type ∧
    (upload status ub s).state.sample_rate = s.sample_rate ∧
    (upload status ub s).state.bit_depth = s.bit_depth ∧
    (upload status ub s).state.bit_rate = s.bit_rate ∧
    (upload status ub s).state.num_channels = s.num_channels ∧
    (upload status ub s).state.version = s.version ∧
    (upload status ub s).state.path = s.path := by
  have hlink : (link status body md s).state = s ∧
      (link status body md s).metadataOut =
        dictUpdate md "waveplot_uuid" (gidJVal s) := by
    cases body with
    | some b =>
      by_cases hge : 300 ≤ status <;> simp [link, hge]
    | none =>
      by_cases hge : 300 ≤ status
      · rcases hml : dictLookup (dictUpdate md "waveplot_uuid" (gidJVal s))
            "message" with _ | v
        · simp [link, hge, hml]
        · cases v <;> simp [link, hge, hml]
      · simp [link, hge]
  have hup : (upload status ub s).state.full = s.full ∧
      (upload status ub s).state.preview = s.preview ∧
      (upload status ub s).state.duration = s.duration ∧
      (upload status ub s).state.dr_level = s.dr_level ∧
      (upload status ub s).state.source_type = s.source_type ∧
      (upload status ub s).state.sample_rate = s.sample_rate ∧
      (upload status ub s).state.bit_depth = s.bit_depth ∧
      (upload status ub s).state.bit_rate = s.bit_rate ∧
      (upload status ub s).state.num_channels = s.num_channels ∧
      (upload status ub s).state.version = s.version ∧
      (upload status ub s).state.path = s.path := by
    cases ub with
    | none =>
      cases hf : s.full with
      | none => simp [upload, hf]
      | some f =>
        simp only [upload, hf]
        split_ifs <;> simp [hf]
    | some d =>
      cases hf : s.full with
      | none => simp [upload, hf]
      | some f =>
        by_cases h1 : status < 300
        · rcases hg : d.gid with _ | g
          · simp [upload, hf, h1, hg]
          · rcases hih2 : d.image_hash with _ | ih2
            · simp [upload, hf, h1, hg, hih2]
            · rcases hth2 : d.thumbnail with _ | th2
              · simp [upload, hf, h1, hg, hih2, hth2]
              · rcases hsh2 : d.sonic_hash with _ | sh2 <;>
                  simp [upload, hf, h1, hg, hih2, hth2, hsh2]
        · by_cases h2 : status = 303
          · rcases hm : d.message with _ | mm <;>
              simp [upload, hf, h1, h2, hm]
          · simp [upload, hf, h1, h2]
  exact ⟨hlink.1, hlink.2, hup⟩
